import Mathlib

/-!
Verification of the OCPP message envelope layer (`ocpp/messages.py`):
the codec (`unpack` / `pack`), the message model (`Call`, `CallResult`,
`CallError` and their factory operations), the schema store (`get_schema`)
and the payload validator (`validate_payload`).

The Python standard library's JSON text layer (`json.loads` / `json.dumps`)
is modelled at the value level: a `Json` inductive stands for the parsed
value, decoding takes an `Option Json` (`none` = `json.JSONDecodeError`),
and encoding produces the `Json` value handed to `json.dumps`. Python's
`None` and JSON `null` are identified, as `json.loads` maps one to the
other.
-/

namespace Ocpp

/-- A parsed JSON value: null, booleans, integers, strings, arrays and
string-keyed objects. (Floating point numbers are not modelled; no claim
depends on them.) -/
inductive Json where
| null : Json
| bool (b : Bool) : Json
| num (n : Int) : Json
| str (s : String) : Json
| arr (elems : List Json) : Json
| obj (fields : List (String × Json)) : Json


/-- Python `==` between a parsed-JSON value and an integer constant, as in
`msg[0] == cls.message_type_id`: integers compare numerically, booleans
compare as 0 / 1, and every other type compares unequal. -/
def jsonEqInt : Json → Int → Bool
| .num n, k => n == k
| .bool b, k => (if b then (1 : Int) else 0) == k
| _, _ => false

/-- Python `==` between a parsed-JSON value and a string constant, as in
`error.code == self.error_code`: equal exactly when the value is that
string. -/
def jsonEqStr : Json → String → Bool
| .str s, t => s == t
| _, _ => false

mutual

/-- Python `repr()` of a parsed-JSON value, used for elements nested inside
containers when a container is formatted. -/
def pyRepr : Json → String
| .null => "None"
| .bool true => "True"
| .bool false => "False"
| .num n => toString n
| .str s => "\x27" ++ s ++ "\x27"
| .arr xs => "[" ++ pyReprList xs ++ "]"
| .obj fs => "\x7b" ++ pyReprFields fs ++ "\x7d"

/-- Comma-separated `repr()` of the elements of a Python list. -/
def pyReprList : List Json → String
| [] => ""
| [x] => pyRepr x
| x :: xs => pyRepr x ++ ", " ++ pyReprList xs

/-- Comma-separated `repr()` of the entries of a Python dict. -/
def pyReprFields : List (String × Json) → String
| [] => ""
| [(k, v)] => "\x27" ++ k ++ "\x27: " ++ pyRepr v
| (k, v) :: fs => "\x27" ++ k ++ "\x27: " ++ pyRepr v ++ ", " ++ pyReprFields fs

end

/-- Python `str()` of a parsed-JSON value, as applied by an f-string: a
string formats as its bare contents, anything else as its `repr()`. -/
def pyStr : Json → String
| .str s => s
| j => pyRepr j

/-- A `Call` frame (wire type id 2): `unique_id`, `action`, `payload`. The
constructor stores whatever parsed-JSON values the wire carried, with no
validation; the dataclass-flattening branch of `__init__` is a no-op on
parsed wire values, which are never dataclasses. -/
structure Call where
  unique_id : Json
  action : Json
  payload : Json


/-- The `message_type_id` class attribute of `Call`. -/
def Call.message_type_id : Int := 2

/-- A `CallResult` frame (wire type id 3): `unique_id`, `payload`, and an
in-memory `action` defaulting to `None` (not part of the wire form). -/
structure CallResult where
  unique_id : Json
  payload : Json
  action : Json := .null


/-- The `message_type_id` class attribute of `CallResult`. -/
def CallResult.message_type_id : Int := 3

/-- A `CallError` frame (wire type id 4): `unique_id`, `error_code`,
`error_description`, `error_details` (the latter defaulting to `None`). -/
structure CallError where
  unique_id : Json
  error_code : Json
  error_description : Json
  error_details : Json := .null


/-- The `message_type_id` class attribute of `CallError`. -/
def CallError.message_type_id : Int := 4

/-- The three message variants `unpack` can return. -/
inductive Message where
| call (c : Call)
| callResult (r : CallResult)
| callError (e : CallError)


/-- The ways `unpack` can fail. The first four mirror the exceptions the
source raises explicitly: `FormatViolationError` for unparseable text,
`ProtocolError` for a non-list value and for an empty list, and
`PropertyConstraintViolationError` (carrying the offending first element)
for an unknown type id. `typeError` models the Python `TypeError` raised by
`cls(*msg[1:])` when the number of remaining elements does not fit the
constructor's signature; `unpack` does not catch it. -/
inductive FrameError where
| formatViolation : FrameError
| protocolNotList : FrameError
| protocolMissingTypeId : FrameError
| propertyConstraintViolation (typeId : Json) : FrameError
| typeError : FrameError


/-- `Call(*args)`: Python accepts exactly three positional arguments
(`unique_id`, `action`, `payload`) and raises `TypeError` otherwise. -/
def Call.ofArgs : List Json → Except FrameError Call
| [u, a, p] => .ok ⟨u, a, p⟩
| _ => .error .typeError

/-- `CallResult(*args)`: two or three positional arguments (`action`
defaults to `None`); any other count raises `TypeError`. -/
def CallResult.ofArgs : List Json → Except FrameError CallResult
| [u, p] => .ok ⟨u, p, .null⟩
| [u, p, a] => .ok ⟨u, p, a⟩
| _ => .error .typeError

/-- `CallError(*args)`: three or four positional arguments (`error_details`
defaults to `None`); any other count raises `TypeError`. -/
def CallError.ofArgs : List Json → Except FrameError CallError
| [u, c, d] => .ok ⟨u, c, d, .null⟩
| [u, c, d, det] => .ok ⟨u, c, d, det⟩
| _ => .error .typeError

/-- `unpack` after the `json.loads` step (`none` models text that is not
valid JSON). Mirrors the source: parse failure raises
`FormatViolationError`; a non-list raises `ProtocolError`; the loop over
`[Call, CallResult, CallError]` indexes `msg[0]`, whose `IndexError` on an
empty list becomes `ProtocolError`; a matching type id constructs the class
from the remaining elements; no match raises
`PropertyConstraintViolationError` naming the offending value. -/
def unpack (parsed : Option Json) : Except FrameError Message :=
  match parsed with
  | none => .error .formatViolation
  | some (.arr []) => .error .protocolMissingTypeId
  | some (.arr (first :: rest)) =>
    if jsonEqInt first Call.message_type_id then
      Message.call <$> Call.ofArgs rest
    else if jsonEqInt first CallResult.message_type_id then
      Message.callResult <$> CallResult.ofArgs rest
    else if jsonEqInt first CallError.message_type_id then
      Message.callError <$> CallError.ofArgs rest
    else
      .error (.propertyConstraintViolation first)
  | some _ => .error .protocolNotList

/-- `Call.to_json`: the JSON value serialized by `json.dumps` — the wire
array `[2, unique_id, action, payload]`. -/
def Call.to_json (c : Call) : Json :=
  .arr [.num Call.message_type_id, c.unique_id, c.action, c.payload]

/-- `CallResult.to_json`: the wire array `[3, unique_id, payload]` (the
in-memory `action` is not serialized). -/
def CallResult.to_json (r : CallResult) : Json :=
  .arr [.num CallResult.message_type_id, r.unique_id, r.payload]

/-- `CallError.to_json`: the wire array
`[4, unique_id, error_code, error_description, error_details]`. -/
def CallError.to_json (e : CallError) : Json :=
  .arr [.num CallError.message_type_id, e.unique_id, e.error_code,
        e.error_description, e.error_details]

/-- `pack`: delegates to the variant's `to_json`. -/
def pack : Message → Json
| .call c => c.to_json
| .callResult r => r.to_json
| .callError e => e.to_json

/-- `Call.create_call_result`: a `CallResult` with the same `unique_id` and
the given payload, whose `action` is then set from the Call. -/
def Call.create_call_result (c : Call) (payload : Json) : CallResult :=
  { unique_id := c.unique_id, payload := payload, action := c.action }

/-- An exception value passed to `create_call_error`: either an instance of
an `OCPPError` subclass, carrying its `code`, `description` and `details`
attributes, or any other exception. -/
inductive PyException where
| ocppError (code : String) (description : String) (details : Json)
| other


/-- `Call.create_call_error`: a `CallError` with the same `unique_id`; an
`OCPPError` contributes its code, description and details verbatim, any
other exception yields the generic `"InternalError"` /
`"An unexpected error occured."` / empty-dict triple (the description is
misspelled exactly as in the source). -/
def Call.create_call_error (c : Call) (exception : PyException) : CallError :=
  match exception with
  | .ocppError code description details =>
    { unique_id := c.unique_id, error_code := .str code,
      error_description := .str description, error_details := details }
  | .other =>
    { unique_id := c.unique_id, error_code := .str "InternalError",
      error_description := .str "An unexpected error occured.",
      error_details := .obj [] }

/-- Modelled from the spec: the `OCPPError` subclass hierarchy lives in
`ocpp/exceptions.py`, which is not under `src/`. Per the error-taxonomy
section, a fixed closed vocabulary of protocol error codes maps to distinct
failure kinds; this inductive enumerates those kinds. -/
inductive OCPPErrorKind where
| notImplemented
| notSupported
| internalError
| protocolViolation
| securityError
| formationViolation
| propertyConstraintViolation
| occurenceConstraintViolation
| typeConstraintViolation
| genericError
deriving DecidableEq

/-- Modelled from the spec: the `code` class attribute of each `OCPPError`
subclass, using the vocabulary the spec fixes. -/
def OCPPErrorKind.code : OCPPErrorKind → String
| .notImplemented => "NotImplemented"
| .notSupported => "NotSupported"
| .internalError => "InternalError"
| .protocolViolation => "ProtocolError"
| .securityError => "SecurityError"
| .formationViolation => "FormationViolation"
| .propertyConstraintViolation => "PropertyConstraintViolation"
| .occurenceConstraintViolation => "OccurenceConstraintViolation"
| .typeConstraintViolation => "TypeConstraintViolation"
| .genericError => "GenericError"

/-- Modelled from the spec: the list `OCPPError.__subclasses__()` iterated
by `to_exception` — the closed registry of failure kinds known at build
time. The codes are pairwise distinct, so the iteration order cannot change
which kind matches. -/
def errorKinds : List OCPPErrorKind :=
  [.notImplemented, .notSupported, .internalError, .protocolViolation,
   .securityError, .formationViolation, .propertyConstraintViolation,
   .occurenceConstraintViolation, .typeConstraintViolation, .genericError]

/-- Whether a received error code matches some registered kind. -/
def codeRegistered (code : Json) : Bool :=
  errorKinds.any fun k => jsonEqStr code k.code

/-- A constructed `OCPPError` instance: its kind together with the
`description` and `details` it was instantiated with. -/
structure OCPPFailure where
  kind : OCPPErrorKind
  description : Json
  details : Json

/-- The failure raised by `to_exception` when the error code matches no
registered kind (`UnknownCallErrorCodeError`, naming the code). -/
inductive ToExceptionError where
| unknownCallErrorCode (code : Json)

/-- `CallError.to_exception`: scans the registered `OCPPError` subclasses
for the one whose `code` equals this message's `error_code` and constructs
it with this message's description and details; raises
`UnknownCallErrorCodeError` when none matches. -/
def CallError.to_exception (e : CallError) : Except ToExceptionError OCPPFailure :=
  match errorKinds.find? (fun k => jsonEqStr e.error_code k.code) with
  | some k => .ok ⟨k, e.error_description, e.error_details⟩
  | none => .error (.unknownCallErrorCode e.error_code)

/-- Modelled from the spec: `MessageType` of `ocpp/v16/enums.py` is not
under `src/`; the spec fixes the discriminators Call ↦ 2, CallResult ↦ 3,
matching the classes' `message_type_id` attributes. -/
def MessageType.Call : Int := 2

/-- Modelled from the spec: the `MessageType.CallResult` discriminator. -/
def MessageType.CallResult : Int := 3

/-- The ways `get_schema` can fail: `valueError` is the bare `ValueError`
raised for an unsupported version; `typeError` is the Python `TypeError`
from `schema_name += suffix` when the action is not a string; `loadError`
stands for `OSError` or `json.JSONDecodeError` while reading and parsing
the schema document. -/
inductive SchemaError where
| valueError
| typeError
| loadError
deriving DecidableEq

/-- Python `schema_name += suffix` where `schema_name` started as
`message.action`: string concatenation succeeds only when the value is a
string; any other value (including `None`) raises `TypeError`. -/
def pyAddStr : Json → String → Except SchemaError Json
| .str s, t => .ok (.str (s ++ t))
| _, _ => .error .typeError

/-- The `schema_name` computation inside `get_schema`: start from the
action, append `Response` for a CallResult, append `Request` for a Call
only under version 2.0, then append `_v1p0` under version 2.0. -/
def schema_name (message_type_id : Int) (action : Json) (ocpp_version : String) :
    Except SchemaError Json :=
  let base :=
    if message_type_id == MessageType.CallResult then
      pyAddStr action "Response"
    else if message_type_id == MessageType.Call then
      if ocpp_version == "2.0" then pyAddStr action "Request" else .ok action
    else
      .ok action
  match base with
  | .error e => .error e
  | .ok name => if ocpp_version == "2.0" then pyAddStr name "_v1p0" else .ok name

/-- The version-to-directory mapping at the top of `get_schema`; an
unsupported version raises a bare `ValueError`. -/
def schemas_dir (ocpp_version : String) : Except SchemaError String :=
  if ocpp_version == "1.6" then .ok "v16"
  else if ocpp_version == "2.0" then .ok "v20"
  else .error .valueError

/-- The `_schemas` module-level cache, keyed by the relative schema path. -/
abbrev SchemaCache := List (String × Json)

/-- The `relative_path` computed inside `get_schema` — the cache key:
`f'{schemas_dir}/schemas/{schema_name}.json'` (the f-string applies
`str()` to the schema name). -/
def relative_path (dir : String) (name : Json) : String :=
  dir ++ "/schemas/" ++ pyStr name ++ ".json"

/-- `get_schema`: resolves the version directory and schema name, builds the
relative path, and serves the document from the `_schemas` cache when the
path is present; otherwise it reads the backing store and stores the parsed
document under the path. The backing file system together with the
`json.loads` of the read text is modelled by `disk` (`none` = `OSError` or
`json.JSONDecodeError`; paths are relative, the constant module-directory
prefix being dropped). The returned `Bool` records whether this call read
the backing store (`false` = served from cache). -/
def get_schema (disk : String → Option Json) (message_type_id : Int)
    (action : Json) (ocpp_version : String) (schemas : SchemaCache) :
    Except SchemaError (Json × SchemaCache × Bool) :=
  match schemas_dir ocpp_version with
  | .error e => .error e
  | .ok dir =>
    match schema_name message_type_id action ocpp_version with
    | .error e => .error e
    | .ok name =>
      match List.lookup (relative_path dir name) schemas with
      | some doc => .ok (doc, schemas, false)
      | none =>
        match disk (relative_path dir name) with
        | some doc => .ok (doc, (relative_path dir name, doc) :: schemas, true)
        | none => .error .loadError

/-- The distinct `ValidationError` messages `validate_payload` raises:
rejected message type, schema that could not be loaded (naming the action),
or a payload failing schema validation (naming payload and action). -/
inductive ValidationFailure where
| wrongMessageType
| schemaLoadFailed (action : Json)
| payloadInvalid (payload : Json) (action : Json)

/-- The outcome taxonomy of `validate_payload`: a `ValidationError` as
documented, or an exception escaping uncaught — the `ValueError` for an
unsupported version, or the `TypeError` from suffixing a non-string action
(the `except` around `get_schema` catches only `OSError` and
`json.JSONDecodeError`). -/
inductive ValidateError where
| validationError (f : ValidationFailure)
| valueError
| typeError

/-- The body of `validate_payload` shared by the `Call` and `CallResult`
branches: resolve the schema (translating load failures to
`ValidationError`, letting `ValueError` and `TypeError` escape), then check
the payload against it; `check` models the external `jsonschema.validate`
(`false` = it raised `SchemaValidationError`). The special-cased actions
branch of the source is a no-op. Returns the updated schema cache. -/
def validatePayloadCore (disk : String → Option Json)
    (check : Json → Json → Bool) (message_type_id : Int)
    (action payload : Json) (ocpp_version : String) (schemas : SchemaCache) :
    Except ValidateError SchemaCache :=
  match get_schema disk message_type_id action ocpp_version schemas with
  | .error .loadError => .error (.validationError (.schemaLoadFailed action))
  | .error .valueError => .error .valueError
  | .error .typeError => .error .typeError
  | .ok (schema, schemas1, _) =>
    if check payload schema then .ok schemas1
    else .error (.validationError (.payloadInvalid payload action))

/-- `validate_payload`: rejects anything but a `Call` or `CallResult` with a
`ValidationError`, then validates the payload against the schema for the
message's type id, action and version. -/
def validate_payload (disk : String → Option Json)
    (check : Json → Json → Bool) (message : Message) (ocpp_version : String)
    (schemas : SchemaCache) : Except ValidateError SchemaCache :=
  match message with
  | .callError _ => .error (.validationError .wrongMessageType)
  | .call c =>
    validatePayloadCore disk check Call.message_type_id c.action c.payload
      ocpp_version schemas
  | .callResult r =>
    validatePayloadCore disk check CallResult.message_type_id r.action
      r.payload ocpp_version schemas

/-! ## Helper lemmas -/

/-- `Call(*args)` either succeeds or raises the argument-count TypeError. -/
theorem call_ofArgs_ok_or_typeError (args : List Json) :
    (∃ c, Call.ofArgs args = .ok c) ∨ Call.ofArgs args = .error .typeError := by
  unfold Call.ofArgs
  split
  · exact .inl ⟨_, rfl⟩
  · exact .inr rfl

/-- `CallResult(*args)` either succeeds or raises the argument-count
TypeError. -/
theorem callResult_ofArgs_ok_or_typeError (args : List Json) :
    (∃ r, CallResult.ofArgs args = .ok r) ∨
      CallResult.ofArgs args = .error .typeError := by
  unfold CallResult.ofArgs
  split
  · exact .inl ⟨_, rfl⟩
  · exact .inl ⟨_, rfl⟩
  · exact .inr rfl

/-- `CallError(*args)` either succeeds or raises the argument-count
TypeError. -/
theorem callError_ofArgs_ok_or_typeError (args : List Json) :
    (∃ e, CallError.ofArgs args = .ok e) ∨
      CallError.ofArgs args = .error .typeError := by
  unfold CallError.ofArgs
  split
  · exact .inl ⟨_, rfl⟩
  · exact .inl ⟨_, rfl⟩
  · exact .inr rfl

/-! ## Theorems -/

/-- C2: `unpack` classifies framing failures exactly as specified —
unparseable text yields a FormatViolation; a parsed value that is not a
list yields a ProtocolViolation; an empty list (no discriminator) yields a
ProtocolViolation; and a first element matching none of the discriminators
2, 3, 4 yields a PropertyConstraintViolation carrying the offending
value. -/
theorem unpack_framing_classification :
    unpack none = .error .formatViolation ∧
    (∀ j : Json, (∀ xs, j ≠ .arr xs) →
      unpack (some j) = .error .protocolNotList) ∧
    unpack (some (.arr [])) = .error .protocolMissingTypeId ∧
    (∀ (v : Json) (rest : List Json),
      jsonEqInt v 2 = false → jsonEqInt v 3 = false → jsonEqInt v 4 = false →
      unpack (some (.arr (v :: rest))) =
        .error (.propertyConstraintViolation v)) := by
  refine ⟨rfl, ?_, rfl, ?_⟩
  · intro j h
    cases j with
    | arr xs => exact absurd rfl (h xs)
    | _ => rfl
  · intro v rest h2 h3 h4
    simp [unpack, Call.message_type_id, CallResult.message_type_id,
      CallError.message_type_id, h2, h3, h4]

/-- C2 witness: concrete instances of each classification — an object is
rejected as not a list, and discriminator 9 is rejected as an invalid
MessageTypeId naming the 9. -/
theorem unpack_framing_classification_witness :
    unpack (some (.obj [])) = .error .protocolNotList ∧
    unpack (some (.arr [.num 9, .str "1"])) =
      .error (.propertyConstraintViolation (.num 9)) := by
  constructor
  · exact unpack_framing_classification.2.1 (.obj []) (fun xs h => by cases h)
  · exact unpack_framing_classification.2.2.2 (.num 9) [.str "1"]
      (by decide) (by decide) (by decide)

/-- C3: round-trip — decoding the JSON value that `encode` serializes for a
Request reconstructs the very same Request (same `unique_id`, `action` and
`payload`); the JSON text layer is the standard library's
`loads`-after-`dumps` identity on such values. -/
theorem unpack_pack_roundtrip_call (r : Call) :
    unpack (some (pack (.call r))) = .ok (.call r) := by
  cases r
  rfl

/-- C3 witness: the round trip at the specification's example frame. -/
theorem unpack_pack_roundtrip_call_witness :
    unpack (some (pack (.call
        ⟨.str "19223201", .str "BootNotification",
          .obj [("chargePointVendor", .str "VendorX")]⟩))) =
      .ok (.call ⟨.str "19223201", .str "BootNotification",
        .obj [("chargePointVendor", .str "VendorX")]⟩) :=
  unpack_pack_roundtrip_call
    ⟨.str "19223201", .str "BootNotification",
      .obj [("chargePointVendor", .str "VendorX")]⟩

/-- C8: `create_call_result` yields a CallResult with the Call's
`unique_id`, the Call's `action`, and the given payload. -/
theorem create_call_result_copies_ids (c : Call) (payload : Json) :
    (c.create_call_result payload).unique_id = c.unique_id ∧
    (c.create_call_result payload).action = c.action ∧
    (c.create_call_result payload).payload = payload :=
  ⟨rfl, rfl, rfl⟩

/-- C8 witness: the specification's example — a "19223201" /
"BootNotification" Request produces a Response carrying the same
identifiers. -/
theorem create_call_result_copies_ids_witness :
    (Call.create_call_result
        ⟨.str "19223201", .str "BootNotification", .obj []⟩
        (.obj [("status", .str "Accepted")])).unique_id = .str "19223201" ∧
    (Call.create_call_result
        ⟨.str "19223201", .str "BootNotification", .obj []⟩
        (.obj [("status", .str "Accepted")])).action =
      .str "BootNotification" ∧
    (Call.create_call_result
        ⟨.str "19223201", .str "BootNotification", .obj []⟩
        (.obj [("status", .str "Accepted")])).payload =
      .obj [("status", .str "Accepted")] :=
  create_call_result_copies_ids
    ⟨.str "19223201", .str "BootNotification", .obj []⟩
    (.obj [("status", .str "Accepted")])

/-- C9 counterexample: decoding the frame `[2, "", "", {}]` succeeds and
yields a Call whose `unique_id` and `action` are both the empty string,
contradicting the claimed non-emptiness invariant. -/
theorem unpack_accepts_empty_strings :
    unpack (some (.arr [.num 2, .str "", .str "", .obj []])) =
      .ok (.call ⟨.str "", .str "", .obj []⟩) := rfl

/-- C9 amended: a successfully decoded Call carries the wire elements
verbatim — no emptiness or type check is applied to `unique_id` or
`action`, so either may be the empty string (or any JSON value). -/
theorem unpack_call_fields_verbatim (u a p : Json) :
    unpack (some (.arr [.num 2, u, a, p])) = .ok (.call ⟨u, a, p⟩) := rfl

/-- C9 amended witness: a frame with a non-string action and a numeric
payload decodes verbatim. -/
theorem unpack_call_fields_verbatim_witness :
    unpack (some (.arr [.num 2, .str "x", .null, .num 5])) =
      .ok (.call ⟨.str "x", .null, .num 5⟩) :=
  unpack_call_fields_verbatim (.str "x") .null (.num 5)

/-- C1 counterexample: the frame `[2, "a"]` has the Call discriminator but
only one following element; `unpack` fails with the uncaught argument-count
TypeError, which is none of the three claimed framing failure kinds. -/
theorem unpack_arity_mismatch_escapes :
    unpack (some (.arr [.num 2, .str "a"])) = .error .typeError ∧
    FrameError.typeError ≠ FrameError.formatViolation ∧
    FrameError.typeError ≠ FrameError.protocolNotList ∧
    FrameError.typeError ≠ FrameError.protocolMissingTypeId ∧
    ∀ v, FrameError.typeError ≠ FrameError.propertyConstraintViolation v := by
  refine ⟨rfl, by simp, by simp, by simp, fun v => by simp⟩

/-- C1 amended: for every parse outcome, `unpack` either returns one of the
three message variants or fails with one of the three framing kinds, or —
exactly when the first element matched a known type id but the remaining
element count did not fit that constructor — with the uncaught argument-
count TypeError. -/
theorem unpack_total_classification (parsed : Option Json) :
    ((∃ m, unpack parsed = .ok m) ∨
     unpack parsed = .error .formatViolation ∨
     unpack parsed = .error .protocolNotList ∨
     unpack parsed = .error .protocolMissingTypeId ∨
     (∃ v, unpack parsed = .error (.propertyConstraintViolation v)) ∨
     unpack parsed = .error .typeError) ∧
    (unpack parsed = .error .typeError →
      ∃ first rest, parsed = some (.arr (first :: rest)) ∧
        (jsonEqInt first 2 = true ∨ jsonEqInt first 3 = true ∨
         jsonEqInt first 4 = true)) := by
  cases parsed with
  | none => exact ⟨.inr (.inl rfl), fun h => absurd h (by simp [unpack])⟩
  | some j =>
    cases j with
    | arr elems =>
      cases elems with
      | nil =>
        exact ⟨.inr (.inr (.inr (.inl rfl))), fun h => absurd h (by simp [unpack])⟩
      | cons first rest =>
        by_cases h2 : jsonEqInt first Call.message_type_id = true
        · rcases call_ofArgs_ok_or_typeError rest with ⟨c, hc⟩ | hc
          · refine ⟨.inl ⟨.call c, ?_⟩, fun h => absurd h ?_⟩ <;>
              simp [unpack, h2, hc]
          · refine ⟨.inr (.inr (.inr (.inr (.inr ?_)))),
              fun _ => ⟨first, rest, rfl, .inl h2⟩⟩
            simp [unpack, h2, hc]
        · by_cases h3 : jsonEqInt first CallResult.message_type_id = true
          · rcases callResult_ofArgs_ok_or_typeError rest with ⟨r, hr⟩ | hr
            · refine ⟨.inl ⟨.callResult r, ?_⟩, fun h => absurd h ?_⟩ <;>
                simp [unpack, h2, h3, hr]
            · refine ⟨.inr (.inr (.inr (.inr (.inr ?_)))),
                fun _ => ⟨first, rest, rfl, .inr (.inl h3)⟩⟩
              simp [unpack, h2, h3, hr]
          · by_cases h4 : jsonEqInt first CallError.message_type_id = true
            · rcases callError_ofArgs_ok_or_typeError rest with ⟨e, he⟩ | he
              · refine ⟨.inl ⟨.callError e, ?_⟩, fun h => absurd h ?_⟩ <;>
                  simp [unpack, h2, h3, h4, he]
              · refine ⟨.inr (.inr (.inr (.inr (.inr ?_)))),
                  fun _ => ⟨first, rest, rfl, .inr (.inr h4)⟩⟩
                simp [unpack, h2, h3, h4, he]
            · refine ⟨.inr (.inr (.inr (.inr (.inl ⟨first, ?_⟩)))),
                fun h => absurd h ?_⟩ <;>
                simp [unpack, h2, h3, h4]
    | null => exact ⟨.inr (.inr (.inl rfl)), fun h => absurd h (by simp [unpack])⟩
    | bool b => exact ⟨.inr (.inr (.inl rfl)), fun h => absurd h (by simp [unpack])⟩
    | num n => exact ⟨.inr (.inr (.inl rfl)), fun h => absurd h (by simp [unpack])⟩
    | str s => exact ⟨.inr (.inr (.inl rfl)), fun h => absurd h (by simp [unpack])⟩
    | obj fs => exact ⟨.inr (.inr (.inl rfl)), fun h => absurd h (by simp [unpack])⟩

/-- C1 amended witness: the frame `[3, "u"]` makes `unpack` fail with the
TypeError, and the theorem locates a matched known type id at its head. -/
theorem unpack_total_classification_witness :
    ∃ first rest,
      (some (Json.arr [Json.num 3, Json.str "u"]) : Option Json) =
        some (Json.arr (first :: rest)) ∧
      (jsonEqInt first 2 = true ∨ jsonEqInt first 3 = true ∨
       jsonEqInt first 4 = true) :=
  (unpack_total_classification (some (.arr [.num 3, .str "u"]))).2 rfl

/-- C4 counterexample: for a failure that is not an OCPPError the
substituted description is the source's misspelled
"An unexpected error occured.", not "An unexpected error occurred." as the
claim states. -/
theorem create_call_error_description_misspelled :
    (Call.create_call_error ⟨.str "42", .str "A", .obj []⟩
        .other).error_description ≠ .str "An unexpected error occurred." ∧
    (Call.create_call_error ⟨.str "42", .str "A", .obj []⟩
        .other).error_description = .str "An unexpected error occured." := by
  constructor
  · simp [Call.create_call_error]
  · rfl

/-- C4 amended: `create_call_error` returns a CallError with the Call's
`unique_id`; an OCPPError's code, description and details are used
verbatim, and any other failure yields exactly the generic triple with code
"InternalError", the source's description "An unexpected error occured."
and empty details. -/
theorem create_call_error_spec (c : Call) (exc : PyException) :
    (c.create_call_error exc).unique_id = c.unique_id ∧
    (∀ code description details, exc = .ocppError code description details →
      (c.create_call_error exc).error_code = .str code ∧
      (c.create_call_error exc).error_description = .str description ∧
      (c.create_call_error exc).error_details = details) ∧
    (exc = .other →
      (c.create_call_error exc).error_code = .str "InternalError" ∧
      (c.create_call_error exc).error_description =
        .str "An unexpected error occured." ∧
      (c.create_call_error exc).error_details = .obj []) := by
  cases exc with
  | ocppError code description details =>
    refine ⟨rfl, ?_, ?_⟩
    · intro code1 d1 dd1 h
      injection h with h1 h2 h3
      subst h1; subst h2; subst h3
      exact ⟨rfl, rfl, rfl⟩
    · intro h
      exact absurd h (by simp)
  | other =>
    refine ⟨rfl, ?_, fun _ => ⟨rfl, rfl, rfl⟩⟩
    intro code1 d1 dd1 h
    exact absurd h (by simp)

/-- C4 amended witness: a concrete OCPPError's code is copied verbatim, and
a concrete non-OCPPError failure receives the misspelled generic
description. -/
theorem create_call_error_spec_witness :
    (Call.create_call_error ⟨.str "7", .str "B", .obj []⟩
        (.ocppError "GenericError" "boom" (.obj []))).error_code =
      .str "GenericError" ∧
    (Call.create_call_error ⟨.str "7", .str "B", .obj []⟩
        .other).error_description = .str "An unexpected error occured." := by
  constructor
  · exact ((create_call_error_spec ⟨.str "7", .str "B", .obj []⟩
      (.ocppError "GenericError" "boom" (.obj []))).2.1 "GenericError" "boom"
      (.obj []) rfl).1
  · exact ((create_call_error_spec ⟨.str "7", .str "B", .obj []⟩
      .other).2.2 rfl).2.1

/-- C5: `to_exception` returns the failure kind registered for the error
code — populated with this CallError's description and details — exactly
when the code is in the registered vocabulary, and fails with
UnknownCallErrorCode exactly when it is not; it never coerces an
unregistered code to a known kind. -/
theorem to_exception_matches_registry (e : CallError) :
    (codeRegistered e.error_code = true →
      ∃ k, CallError.to_exception e =
          .ok ⟨k, e.error_description, e.error_details⟩ ∧
        jsonEqStr e.error_code k.code = true) ∧
    (codeRegistered e.error_code = false →
      CallError.to_exception e = .error (.unknownCallErrorCode e.error_code)) := by
  constructor
  · intro h
    cases hf : errorKinds.find? (fun k => jsonEqStr e.error_code k.code) with
    | none =>
      exfalso
      rw [List.find?_eq_none] at hf
      rcases List.any_eq_true.mp h with ⟨k, hk, hpk⟩
      exact hf k hk hpk
    | some k =>
      exact ⟨k, by simp [CallError.to_exception, hf],
        List.find?_some (p := fun (k : OCPPErrorKind) => jsonEqStr e.error_code k.code) hf⟩
  · intro h
    cases hf : errorKinds.find? (fun k => jsonEqStr e.error_code k.code) with
    | none => simp [CallError.to_exception, hf]
    | some k =>
      exfalso
      have hpk : jsonEqStr e.error_code k.code = true :=
        List.find?_some (p := fun (k : OCPPErrorKind) => jsonEqStr e.error_code k.code) hf
      have hk : k ∈ errorKinds := List.mem_of_find?_eq_some hf
      have hany : errorKinds.any (fun k => jsonEqStr e.error_code k.code) = true :=
        List.any_eq_true.mpr ⟨k, hk, hpk⟩
      rw [codeRegistered] at h
      rw [hany] at h
      exact Bool.noConfusion h

/-- C5 witness: the code "NotImplemented" resolves to its registered kind
carrying the message's description and details, while "TotallyMadeUp" fails
with UnknownCallErrorCode. -/
theorem to_exception_matches_registry_witness :
    (∃ k, CallError.to_exception
          ⟨.str "1", .str "NotImplemented", .str "oops", .obj []⟩ =
        .ok ⟨k, .str "oops", .obj []⟩ ∧
      jsonEqStr (.str "NotImplemented") k.code = true) ∧
    CallError.to_exception
        ⟨.str "1", .str "TotallyMadeUp", .str "oops", .obj []⟩ =
      .error (.unknownCallErrorCode (.str "TotallyMadeUp")) := by
  constructor
  · exact (to_exception_matches_registry
      ⟨.str "1", .str "NotImplemented", .str "oops", .obj []⟩).1 (by decide)
  · exact (to_exception_matches_registry
      ⟨.str "1", .str "TotallyMadeUp", .str "oops", .obj []⟩).2 (by decide)

/-- C7: the schema lookup name — under version "1.6" a Request lookup uses
the bare action and a Response lookup appends "Response"; under version
"2.0" a Request lookup appends "Request", a Response lookup appends
"Response", and both directions then append the version suffix "_v1p0". -/
theorem schema_name_suffixing (action : String) :
    schema_name MessageType.Call (.str action) "1.6" = .ok (.str action) ∧
    schema_name MessageType.CallResult (.str action) "1.6" =
      .ok (.str (action ++ "Response")) ∧
    schema_name MessageType.Call (.str action) "2.0" =
      .ok (.str (action ++ "Request" ++ "_v1p0")) ∧
    schema_name MessageType.CallResult (.str action) "2.0" =
      .ok (.str (action ++ "Response" ++ "_v1p0")) :=
  ⟨rfl, rfl, rfl, rfl⟩

/-- C7 witness: the four derivations at the action "BootNotification". -/
theorem schema_name_suffixing_witness :
    schema_name MessageType.Call (.str "BootNotification") "1.6" =
      .ok (.str "BootNotification") ∧
    schema_name MessageType.CallResult (.str "BootNotification") "1.6" =
      .ok (.str ("BootNotification" ++ "Response")) ∧
    schema_name MessageType.Call (.str "BootNotification") "2.0" =
      .ok (.str ("BootNotification" ++ "Request" ++ "_v1p0")) ∧
    schema_name MessageType.CallResult (.str "BootNotification") "2.0" =
      .ok (.str ("BootNotification" ++ "Response" ++ "_v1p0")) :=
  schema_name_suffixing "BootNotification"

/-- Disjointness of the two version namespaces: no path in `v16/schemas/`
coincides with a path in `v20/schemas/`. -/
theorem v16_v20_path_ne (x y : String) :
    ("v16/schemas/" ++ x : String) ≠ "v20/schemas/" ++ y := by
  intro h
  have hd := congrArg String.data h
  rw [String.data_append, String.data_append] at hd
  have hA : ("v16/schemas/" : String).data = ("v20/schemas/" : String).data :=
    List.append_inj_left hd (by decide)
  exact absurd hA (by decide)

/-- C6: after any successful `get_schema` call, a repeated call with the
same (direction, action, version) key serves the same document from the
cache — reading nothing from the backing store and leaving the cache
unchanged; and the two supported versions resolve the same action to
distinct lookup paths, so when the backing store holds distinct documents
there, the two calls return distinct documents. -/
theorem get_schema_caching :
    (∀ (disk : String → Option Json) (mid : Int) (action : Json)
        (v : String) (schemas : SchemaCache) (doc : Json)
        (schemas1 : SchemaCache) (b : Bool),
      get_schema disk mid action v schemas = .ok (doc, schemas1, b) →
      get_schema disk mid action v schemas1 = .ok (doc, schemas1, false)) ∧
    (∀ (action : String) (disk : String → Option Json) (doc16 doc20 : Json),
      disk ("v16/schemas/" ++ action ++ ".json") = some doc16 →
      disk ("v20/schemas/" ++ (action ++ "Request" ++ "_v1p0") ++ ".json") =
        some doc20 →
      doc16 ≠ doc20 →
      ("v16/schemas/" ++ action ++ ".json" : String) ≠
        "v20/schemas/" ++ (action ++ "Request" ++ "_v1p0") ++ ".json" ∧
      ∃ s1 s2 b1 b2,
        get_schema disk MessageType.Call (.str action) "1.6" [] =
          .ok (doc16, s1, b1) ∧
        get_schema disk MessageType.Call (.str action) "2.0" [] =
          .ok (doc20, s2, b2) ∧
        doc16 ≠ doc20) := by
  constructor
  · intro disk mid action v schemas doc schemas1 b h
    cases hd : schemas_dir v with
    | error e =>
      simp only [get_schema, hd] at h
      exact Except.noConfusion h
    | ok dir =>
      cases hn : schema_name mid action v with
      | error e =>
        simp only [get_schema, hd, hn] at h
        exact Except.noConfusion h
      | ok name =>
        cases hl : List.lookup (relative_path dir name) schemas with
        | some d =>
          simp only [get_schema, hd, hn, hl, Except.ok.injEq,
            Prod.mk.injEq] at h
          obtain ⟨h1, h2, h3⟩ := h
          subst h1
          subst h2
          simp [get_schema, hd, hn, hl]
        | none =>
          cases hdisk : disk (relative_path dir name) with
          | none =>
            simp only [get_schema, hd, hn, hl, hdisk] at h
            exact Except.noConfusion h
          | some d =>
            simp only [get_schema, hd, hn, hl, hdisk, Except.ok.injEq,
              Prod.mk.injEq] at h
            obtain ⟨h1, h2, h3⟩ := h
            subst h1
            subst h2
            simp [get_schema, hd, hn, List.lookup]
  · intro action disk doc16 doc20 h16 h20 hne
    have h16a : disk (relative_path "v16" (Json.str action)) = some doc16 := h16
    have h20a : disk (relative_path "v20"
        (Json.str (action ++ "Request" ++ "_v1p0"))) = some doc20 := h20
    have hA : get_schema disk MessageType.Call (Json.str action) "1.6" [] =
        .ok (doc16, [(relative_path "v16" (Json.str action), doc16)], true) := by
      show (match disk (relative_path "v16" (Json.str action)) with
        | some doc =>
          Except.ok (doc,
            (relative_path "v16" (Json.str action), doc) :: ([] : SchemaCache),
            true)
        | none => Except.error SchemaError.loadError) =
        Except.ok (doc16,
          [(relative_path "v16" (Json.str action), doc16)], true)
      rw [h16a]
    have hB : get_schema disk MessageType.Call (Json.str action) "2.0" [] =
        .ok (doc20,
          [(relative_path "v20"
              (Json.str (action ++ "Request" ++ "_v1p0")), doc20)], true) := by
      show (match disk (relative_path "v20"
          (Json.str (action ++ "Request" ++ "_v1p0"))) with
        | some doc =>
          Except.ok (doc,
            (relative_path "v20" (Json.str (action ++ "Request" ++ "_v1p0")),
              doc) :: ([] : SchemaCache),
            true)
        | none => Except.error SchemaError.loadError) =
        Except.ok (doc20,
          [(relative_path "v20"
              (Json.str (action ++ "Request" ++ "_v1p0")), doc20)], true)
      rw [h20a]
    constructor
    · rw [String.append_assoc, String.append_assoc]
      exact v16_v20_path_ne (action ++ ".json")
        ((action ++ "Request" ++ "_v1p0") ++ ".json")
    · exact ⟨_, _, _, _, hA, hB, hne⟩

/-- C6 witness: with a concrete two-document store, a second lookup of the
cached v1.6 key is served unchanged from the cache without a read, and the
v1.6 and v2.0 lookups of the same action return the two distinct
documents. -/
theorem get_schema_caching_witness :
    get_schema
        (fun p => if p = "v16/schemas/A.json" then some (.num 1)
          else if p = "v20/schemas/ARequest_v1p0.json" then some (.num 2)
          else none)
        2 (.str "A") "1.6" [("v16/schemas/A.json", Json.num 1)] =
      .ok (.num 1, [("v16/schemas/A.json", Json.num 1)], false) ∧
    (∃ s1 s2 b1 b2,
      get_schema
          (fun p => if p = "v16/schemas/A.json" then some (.num 1)
            else if p = "v20/schemas/ARequest_v1p0.json" then some (.num 2)
            else none)
          MessageType.Call (.str "A") "1.6" [] = .ok (.num 1, s1, b1) ∧
      get_schema
          (fun p => if p = "v16/schemas/A.json" then some (.num 1)
            else if p = "v20/schemas/ARequest_v1p0.json" then some (.num 2)
            else none)
          MessageType.Call (.str "A") "2.0" [] = .ok (.num 2, s2, b2) ∧
      (Json.num 1 ≠ Json.num 2)) := by
  constructor
  · exact get_schema_caching.1
      (fun p => if p = "v16/schemas/A.json" then some (.num 1)
        else if p = "v20/schemas/ARequest_v1p0.json" then some (.num 2)
        else none)
      2 (.str "A") "1.6" [] (.num 1) [("v16/schemas/A.json", Json.num 1)] true
      (by rfl)
  · exact (get_schema_caching.2 "A"
      (fun p => if p = "v16/schemas/A.json" then some (.num 1)
        else if p = "v20/schemas/ARequest_v1p0.json" then some (.num 2)
        else none)
      (.num 1) (.num 2) (by rfl) (by rfl) (by simp)).2

/-- C10: validating a CallResult decoded fresh from the wire (its `action`
is `None`) fails for every protocol version; under both supported versions
the failure is the uncaught TypeError raised by concatenating
`None + "Response"` while building the schema name — not a ValidationError
of the documented taxonomy. -/
theorem validate_payload_fresh_callresult_typeError
    (disk : String → Option Json) (check : Json → Json → Bool)
    (r : CallResult) (schemas : SchemaCache) (h : r.action = .null) :
    validate_payload disk check (.callResult r) "1.6" schemas =
      .error .typeError ∧
    validate_payload disk check (.callResult r) "2.0" schemas =
      .error .typeError ∧
    (∀ (v : String) (schemas1 : SchemaCache), ∃ err,
      validate_payload disk check (.callResult r) v schemas1 = .error err) ∧
    (∀ f, (ValidateError.typeError : ValidateError) ≠ .validationError f) := by
  have core : ∀ (v : String) (schemas1 : SchemaCache),
      validate_payload disk check (.callResult r) v schemas1 =
        validatePayloadCore disk check CallResult.message_type_id r.action
          r.payload v schemas1 := fun _ _ => rfl
  refine ⟨?_, ?_, ?_, fun f => by simp⟩
  · rw [core, h]
    rfl
  · rw [core, h]
    rfl
  · intro v schemas1
    rw [core, h]
    by_cases h16 : v = "1.6"
    · subst h16
      exact ⟨.typeError, rfl⟩
    · by_cases h20 : v = "2.0"
      · subst h20
        exact ⟨.typeError, rfl⟩
      · refine ⟨.valueError, ?_⟩
        have hb16 : (v == "1.6") = false := beq_eq_false_iff_ne.mpr h16
        have hb20 : (v == "2.0") = false := beq_eq_false_iff_ne.mpr h20
        simp [validatePayloadCore, get_schema, schemas_dir, hb16, hb20]

/-- C10 witness: a concrete freshly decoded CallResult fails validation
under version "1.6" with the uncaught TypeError. -/
theorem validate_payload_fresh_callresult_typeError_witness :
    validate_payload (fun _ => none) (fun _ _ => true)
        (.callResult ⟨.str "5", .obj [], .null⟩) "1.6" [] =
      .error .typeError :=
  (validate_payload_fresh_callresult_typeError (fun _ => none)
    (fun _ _ => true) ⟨.str "5", .obj [], .null⟩ [] rfl).1

end Ocpp
